import Mathlib

set_option maxRecDepth 20000

/-!
Verification of the reactive update core of the Spandrix template engine
(src/templateEngine.js), as a shallow embedding in Lean 4.

JavaScript values are modelled by the inductive type `JVal` (numbers as
integers; functions, Dates, RegExps and DOM nodes are outside the value
universe except where a claim needs them, in which case they appear as
explicitly tagged opaque slots).  Stateful code is modelled by explicit
state-passing: each handler becomes a function from the relevant state to
a new state plus a list of observable effects (change-callback
invocations, console warnings, dispatched events, scheduled renders).
-/

namespace Spandrix

/-- Model of a JavaScript value as it flows through the engine: `vundefined`
is `undefined`, `vnull` is `null`, objects and arrays are structural
(property tables keyed by strings, arrays as element lists). -/
inductive JVal where
  | vundefined
  | vnull
  | vbool (b : Bool)
  | vnum (n : Int)
  | vstr (s : String)
  | varr (elems : List JVal)
  | vobj (fields : List (String × JVal))

/-- `typeof v === 'object'` in JavaScript: true for objects, arrays and
`null`. -/
def typeofIsObject : JVal → Bool
  | .vnull => true
  | .varr _ => true
  | .vobj _ => true
  | _ => false

/-- `typeof v === 'object' && v !== null`: a non-null object or array. -/
def jvalIsObjNonNull : JVal → Bool
  | .varr _ => true
  | .vobj _ => true
  | _ => false

/-- Own-property read `target[key]` on a property table; a missing key
reads as `undefined`. -/
def getOwn (fields : List (String × JVal)) (key : String) : JVal :=
  match fields.lookup key with
  | some v => v
  | none => .vundefined

/-- Own-property write `target[key] = v` on a property table
(`Reflect.set` on a plain data object): replaces the first binding of
`key` or appends a new one. -/
def setOwn (fields : List (String × JVal)) (key : String) (v : JVal) :
    List (String × JVal) :=
  match fields with
  | [] => [(key, v)]
  | (k, w) :: rest =>
      if k = key then (key, v) :: rest else (k, w) :: setOwn rest key v

theorem lookup_setOwn (fields : List (String × JVal)) (key : String) (v : JVal) :
    (setOwn fields key v).lookup key = some v := by
  induction fields with
  | nil => simp [setOwn]
  | cons kw rest ih =>
      obtain ⟨k, w⟩ := kw
      by_cases h : k = key
      · simp [setOwn, h]
      · have hne : (key == k) = false := by
          simp only [beq_eq_false_iff_ne, ne_eq]
          exact fun hh => h hh.symm
        simp [setOwn, h, List.lookup, hne, ih]

theorem getOwn_setOwn (fields : List (String × JVal)) (key : String) (v : JVal) :
    getOwn (setOwn fields key v) key = v := by
  simp [getOwn, lookup_setOwn]

/-- `p` is a prefix of the character list `s`. -/
def listPrefixOf : List Char → List Char → Bool
  | [], _ => true
  | _ :: _, [] => false
  | p :: ps, c :: cs => p = c && listPrefixOf ps cs

/-- `s.startsWith(p)` on JavaScript strings, character by character. -/
def strStartsWith (s p : String) : Bool := listPrefixOf p.data s.data

/-- One hex digit, lower-case, as produced by `JSON.stringify` escapes. -/
def hexChar (n : Nat) : Char :=
  if n < 10 then Char.ofNat ('0'.toNat + n) else Char.ofNat ('a'.toNat + n - 10)

/-- The escape `JSON.stringify` applies to one character inside a string
literal: `"` and backslash are escaped, the named control characters get
their two-character escapes, other control characters get a `\u00XX`
escape, and everything else is passed through. -/
def jsonEscapeChar (c : Char) : String :=
  if c = '"' then "\\\""
  else if c = '\\' then "\\\\"
  else if c = '\n' then "\\n"
  else if c = '\r' then "\\r"
  else if c = '\t' then "\\t"
  else if c = '\x08' then "\\b"
  else if c = '\x0c' then "\\f"
  else if c.toNat < 32 then
    "\\u00" ++ String.singleton (hexChar (c.toNat / 16)) ++
      String.singleton (hexChar (c.toNat % 16))
  else String.singleton c

/-- A JSON string literal for `s`, as `JSON.stringify` produces it. -/
def jsonQuote (s : String) : String :=
  "\"" ++ s.data.foldl (fun acc c => acc ++ jsonEscapeChar c) "" ++ "\""

mutual

/-- `JSON.stringify(v)` over the modelled value universe.  `none` models
the JavaScript result `undefined` (top-level `undefined`); inside arrays
`undefined` serializes as `null`, and object fields whose value
serializes to `undefined` are dropped. -/
def jsonStringify : JVal → Option String
  | .vundefined => none
  | .vnull => some "null"
  | .vbool b => some (if b then "true" else "false")
  | .vnum n => some (toString n)
  | .vstr s => some (jsonQuote s)
  | .varr xs => some ("[" ++ String.intercalate "," (jsonArrElems xs) ++ "]")
  | .vobj fs =>
      some ("\x7b" ++ String.intercalate "," (jsonObjFields fs) ++ "\x7d")

/-- Serialized array elements: `undefined` elements become `"null"`. -/
def jsonArrElems : List JVal → List String
  | [] => []
  | x :: xs => (jsonStringify x).getD "null" :: jsonArrElems xs

/-- Serialized object fields, dropping fields whose value does not
serialize (i.e. `undefined`-valued fields). -/
def jsonObjFields : List (String × JVal) → List String
  | [] => []
  | (k, v) :: fs =>
      match jsonStringify v with
      | some s => (jsonQuote k ++ ":" ++ s) :: jsonObjFields fs
      | none => jsonObjFields fs

end

mutual

/-- JavaScript `String(v)`. -/
def jsToString : JVal → String
  | .vundefined => "undefined"
  | .vnull => "null"
  | .vbool b => if b then "true" else "false"
  | .vnum n => toString n
  | .vstr s => s
  | .varr xs => String.intercalate "," (jsArrElemStrings xs)
  | .vobj _ => "[object Object]"

/-- `Array.prototype.toString` stringifies elements with `null` and
`undefined` rendered as the empty string. -/
def jsArrElemStrings : List JVal → List String
  | [] => []
  | x :: xs =>
      (match x with
        | .vundefined => ""
        | .vnull => ""
        | v => jsToString v) :: jsArrElemStrings xs

end

/-! ## Reactive store: the `_makeReactive` set handler (claim C1)

`_makeReactive` (templateEngine.js lines 158-225) wraps a target object
in a proxy.  Its `set` trap (lines 189-208) reads the old value, takes a
fast-path early return for identical non-object values, applies the
mutation via `Reflect.set`, and then, for keys not starting with the
reserved `_` prefix, fires the change callback exactly when the
JSON-serializations of old and new value differ.  The callback invocation
`updateCallback(target, String(key), value, oldValue)` is modelled as an
emitted `ChangeEvent` carrying `(key, newValue, oldValue)`. -/

/-- One invocation of a reactive container's change callback, with the
key, the new value and the old value it was passed. -/
structure ChangeEvent where
  key : String
  newValue : JVal
  oldValue : JVal

/-- JavaScript `===` restricted to the fast-path test of the `set` trap:
`value === oldValue && (typeof value !== 'object' || value === null)`.
On non-objects `===` is value equality; on non-null objects the second
conjunct fails, so the test is false regardless of reference identity. -/
def strictEqNonObj : JVal → JVal → Bool
  | .vundefined, .vundefined => true
  | .vnull, .vnull => true
  | .vbool a, .vbool b => a = b
  | .vnum a, .vnum b => a = b
  | .vstr a, .vstr b => a = b
  | _, _ => false

/-- The `set` trap of `_makeReactive` (lines 189-208): returns the
mutated target together with the list of change-callback invocations it
performs (emitted after the mutation is applied). -/
def reactiveSet (target : List (String × JVal)) (key : String) (value : JVal) :
    List (String × JVal) × List ChangeEvent :=
  let oldValue := getOwn target key
  if strictEqNonObj value oldValue then
    (target, [])
  else
    let target' := setOwn target key value
    if strStartsWith key "_" then (target', [])
    else if jsonStringify oldValue ≠ jsonStringify value then
      (target', [⟨key, value, oldValue⟩])
    else (target', [])

theorem strictEqNonObj_jsonEq (v w : JVal) (h : strictEqNonObj v w = true) :
    jsonStringify v = jsonStringify w := by
  cases v <;> cases w <;> simp_all [strictEqNonObj, jsonStringify]

/-- Claim C1, counterexample.  The claim quantifies over *every* property
key, but the `set` trap never notifies for keys starting with the
reserved `_` prefix: writing `1` over `0` at key `"_x"` is a structurally
different write (the serializations differ), the mutation is applied,
and yet no change-callback invocation is emitted. -/
theorem reactiveSet_underscore_key_counterexample :
    jsonStringify (getOwn [("_x", JVal.vnum 0)] "_x") ≠ jsonStringify (JVal.vnum 1) ∧
    (reactiveSet [("_x", JVal.vnum 0)] "_x" (JVal.vnum 1)).2 = [] ∧
    getOwn (reactiveSet [("_x", JVal.vnum 0)] "_x" (JVal.vnum 1)).1 "_x" = JVal.vnum 1 :=
  ⟨by decide, rfl, rfl⟩

/-- Claim C1 (amended): for every reactive container and every property
key *not starting with the reserved `_` prefix*, a write whose new value
is structurally equal (deep equality, which the store implements as
canonical JSON-serialization equality, spec 4.1) to the current value
emits no change-callback invocation; a write whose new value is
structurally different emits exactly one invocation, carrying
`(key, newValue, oldValue)`, after the underlying mutation is applied
(the post-state already holds the new value).  For `_`-prefixed keys the
equal-write half still holds but a differing write is silent. -/
theorem reactiveSet_deepEq_callback (target : List (String × JVal)) (key : String)
    (v : JVal) :
    (jsonStringify v = jsonStringify (getOwn target key) →
      (reactiveSet target key v).2 = []) ∧
    (strStartsWith key "_" = false →
      jsonStringify v ≠ jsonStringify (getOwn target key) →
      (reactiveSet target key v).2 = [⟨key, v, getOwn target key⟩] ∧
      getOwn (reactiveSet target key v).1 key = v) := by
  constructor
  · intro heq
    unfold reactiveSet
    by_cases hfast : strictEqNonObj v (getOwn target key)
    · simp [hfast]
    · have hcond : jsonStringify (getOwn target key) = jsonStringify v := heq.symm
      by_cases hu : strStartsWith key "_"
      · simp [hfast, hu]
      · simp [hfast, hu, hcond]
  · intro hu hne
    have hfast : strictEqNonObj v (getOwn target key) = false := by
      cases hsq : strictEqNonObj v (getOwn target key)
      · rfl
      · exact absurd (strictEqNonObj_jsonEq v (getOwn target key) hsq) hne
    have hcond : ¬ jsonStringify (getOwn target key) = jsonStringify v :=
      fun h => hne h.symm
    unfold reactiveSet
    simp [hfast, hu, hcond, getOwn_setOwn]

/-- Claim C1, witness: a concrete structurally-different write at a
non-reserved key emits exactly the one expected callback invocation. -/
theorem reactiveSet_deepEq_callback_witness :
    (reactiveSet [("a", JVal.vnum 1)] "b" (JVal.vstr "x")).2 =
      [⟨"b", JVal.vstr "x", JVal.vundefined⟩] ∧
    getOwn (reactiveSet [("a", JVal.vnum 1)] "b" (JVal.vstr "x")).1 "b" =
      JVal.vstr "x" :=
  (reactiveSet_deepEq_callback [("a", JVal.vnum 1)] "b" (JVal.vstr "x")).2
    (by decide) (by decide)

/-! ## Reactive store: the `_makeReactive` get handler (claim C6)

The `get` trap (templateEngine.js lines 164-187) lazily wraps nested
values: when the stored value is a non-frozen plain object or array that
is not already a reactive proxy (and not a DOM `Node`, `Date` or
`RegExp`), it replaces the stored slot with a new reactive wrapper and
returns it; every other value is returned as stored.  Reference
identities of objects are modelled by numeric ids; creating a wrapper
consumes a fresh proxy id from `nextProxyId`, so the number of wrappers
ever created is visible as the id counter.  The source's guard
`target[key] === value` compares the slot with the value just read from
it and always holds in this sequential model. -/

/-- A value as stored in a reactive target's slot, with object reference
identity made explicit. -/
inductive StoredVal where
  | undefinedSlot
  | prim (v : JVal)
  | plainObj (id : Nat)
  | exemptObj (id : Nat)
  | reactiveProxy (id : Nat)

/-- The slots of one reactive target together with the engine-wide
supply of fresh proxy identities. -/
structure ReactiveState where
  fields : List (String × StoredVal)
  nextProxyId : Nat

/-- Slot read on a stored-value table (missing keys read `undefined`). -/
def lookupStored (fields : List (String × StoredVal)) (key : String) : StoredVal :=
  match fields.lookup key with
  | some v => v
  | none => .undefinedSlot

/-- Slot write on a stored-value table. -/
def setStored (fields : List (String × StoredVal)) (key : String) (v : StoredVal) :
    List (String × StoredVal) :=
  match fields with
  | [] => [(key, v)]
  | (k, w) :: rest =>
      if k = key then (key, v) :: rest else (k, w) :: setStored rest key v

theorem lookupStored_setStored (fields : List (String × StoredVal)) (key : String)
    (v : StoredVal) : lookupStored (setStored fields key v) key = v := by
  induction fields with
  | nil => simp [setStored, lookupStored]
  | cons kw rest ih =>
      obtain ⟨k, w⟩ := kw
      by_cases h : k = key
      · simp [setStored, lookupStored, h]
      · have hne : (key == k) = false := by
          simp only [beq_eq_false_iff_ne, ne_eq]
          exact fun hh => h hh.symm
        simp only [setStored, if_neg h]
        simpa [lookupStored, List.lookup, hne] using ih

/-- The `get` trap of `_makeReactive` (lines 164-187): a plain
object/array slot is wrapped into a fresh reactive proxy and the wrapper
is stored back into the slot; everything else is returned unchanged. -/
def reactiveGet (s : ReactiveState) (key : String) : StoredVal × ReactiveState :=
  match lookupStored s.fields key with
  | .plainObj _ =>
      let wrapped := StoredVal.reactiveProxy s.nextProxyId
      (wrapped, ⟨setStored s.fields key wrapped, s.nextProxyId + 1⟩)
  | v => (v, s)

/-- Claim C6: reading a property that holds a plain object or array
wraps it exactly once.  The first read returns a freshly allocated
wrapper and stores it back; a second read without an intervening write
returns the *identical* wrapper, leaves the state untouched, and
allocates no further wrapper (the proxy-id counter has advanced by
exactly one across both reads). -/
theorem reactiveGet_memoizes_wrapper (s : ReactiveState) (key : String) (oid : Nat)
    (h : lookupStored s.fields key = .plainObj oid) :
    (reactiveGet s key).1 = .reactiveProxy s.nextProxyId ∧
    reactiveGet (reactiveGet s key).2 key =
      ((reactiveGet s key).1, (reactiveGet s key).2) ∧
    (reactiveGet s key).2.nextProxyId = s.nextProxyId + 1 ∧
    (reactiveGet (reactiveGet s key).2 key).2.nextProxyId = s.nextProxyId + 1 := by
  have h1 : reactiveGet s key =
      (.reactiveProxy s.nextProxyId,
        ⟨setStored s.fields key (.reactiveProxy s.nextProxyId), s.nextProxyId + 1⟩) := by
    unfold reactiveGet
    rw [h]
  have h2 : lookupStored (setStored s.fields key
      (StoredVal.reactiveProxy s.nextProxyId)) key =
      .reactiveProxy s.nextProxyId := lookupStored_setStored _ _ _
  rw [h1]
  refine ⟨rfl, ?_, rfl, ?_⟩
  · unfold reactiveGet
    rw [h2]
  · unfold reactiveGet
    rw [h2]

/-- Claim C6, witness: a container holding one plain object gets wrapped
on first read and the second read returns the same wrapper with no new
allocation. -/
theorem reactiveGet_memoizes_wrapper_witness :
    (reactiveGet ⟨[("user", StoredVal.plainObj 0)], 5⟩ "user").1 =
      StoredVal.reactiveProxy 5 ∧
    reactiveGet (reactiveGet ⟨[("user", StoredVal.plainObj 0)], 5⟩ "user").2 "user" =
      ((reactiveGet ⟨[("user", StoredVal.plainObj 0)], 5⟩ "user").1,
        (reactiveGet ⟨[("user", StoredVal.plainObj 0)], 5⟩ "user").2) ∧
    (reactiveGet ⟨[("user", StoredVal.plainObj 0)], 5⟩ "user").2.nextProxyId = 6 ∧
    (reactiveGet (reactiveGet ⟨[("user", StoredVal.plainObj 0)], 5⟩ "user").2
        "user").2.nextProxyId = 6 :=
  reactiveGet_memoizes_wrapper ⟨[("user", StoredVal.plainObj 0)], 5⟩ "user" 0 rfl

/-! ## Interpolation: `_interpolateString` and `_sanitizeHTML` (claim C2)

`_interpolateString` (templateEngine.js lines 551-602) replaces every
`\x7b\x7b\x7b expr \x7d\x7d\x7d` (raw) and `\x7b\x7b expr \x7d\x7d`
(escaped) segment of a template string.  The replacement of one segment,
given the value the expression-plus-filter pipeline evaluated to, is
modelled by `interpolateSegment`: the raw branch (lines 588-594) returns
`String(value ?? '')` only when `options.allowRawHTML` is set and
otherwise emits the configured placeholder together with a console
warning; the escaped branch (lines 596-601) stringifies the value
(placeholder for `null`/`undefined`, `JSON.stringify` for objects,
`String(...)` otherwise) and pipes it through `_sanitizeHTML`.
`_sanitizeHTML` (lines 307-312) assigns the input to a detached
element's `textContent` and reads back `innerHTML`, which is the
standard HTML text-node serialization escaping `&`, `<` and `>`. -/

/-- The HTML text-node escape of one character, as produced by writing
`textContent` and reading `innerHTML`. -/
def htmlEscapeChar (c : Char) : String :=
  if c = '&' then "&amp;"
  else if c = '<' then "&lt;"
  else if c = '>' then "&gt;"
  else String.singleton c

/-- `_sanitizeHTML` (lines 307-312) on a string input. -/
def sanitizeHTML (s : String) : String :=
  s.data.foldl (fun acc c => acc ++ htmlEscapeChar c) ""

/-- The engine options relevant to interpolation (constructor defaults:
empty placeholder, raw HTML disabled). -/
structure SpxOptions where
  missingValuePlaceholder : String
  allowRawHTML : Bool

/-- `String(value ?? '')`, the raw-mode stringification (line 593). -/
def rawModeString : JVal → String
  | .vundefined => ""
  | .vnull => ""
  | v => jsToString v

/-- The console warning of line 590. -/
def rawDisabledWarning (expression : String) : String :=
  "Spandrix: Raw HTML disabled for \x7b\x7b\x7b " ++ expression ++ " \x7d\x7d\x7d"

/-- The per-segment replacement performed by `_interpolateString`
(lines 588-601), given the already evaluated and filtered value of the
segment's expression: result string plus emitted console warnings. -/
def interpolateSegment (options : SpxOptions) (isRaw : Bool) (expression : String)
    (value : JVal) : String × List String :=
  if isRaw then
    if !options.allowRawHTML then
      (options.missingValuePlaceholder, [rawDisabledWarning expression])
    else
      (rawModeString value, [])
  else
    let stringValue :=
      match value with
      | .vundefined => options.missingValuePlaceholder
      | .vnull => options.missingValuePlaceholder
      | v =>
          if typeofIsObject v then (jsonStringify v).getD "undefined"
          else jsToString v
    (sanitizeHTML stringValue, [])

/-- The spec's wording for the escaped-mode stringification, stated
independently of the code's control flow: HTML-escaping is applied to
the stringified value, where objects are JSON-stringified and
`null`/`undefined` become the configured placeholder. -/
def specEscapedStringify (options : SpxOptions) : JVal → String
  | .vundefined => options.missingValuePlaceholder
  | .vnull => options.missingValuePlaceholder
  | .varr xs => (jsonStringify (.varr xs)).getD options.missingValuePlaceholder
  | .vobj fs => (jsonStringify (.vobj fs)).getD options.missingValuePlaceholder
  | v => jsToString v

/-- Claim C2: an escaped segment renders as the HTML-escaped
stringification of its value (objects JSON-stringified, placeholder for
`null`/`undefined`) with no warning; a raw segment renders the value
unescaped via `String(value ?? '')` exactly when `allowRawHTML` is set;
with `allowRawHTML` unset a raw segment yields the configured
placeholder and logs a warning. -/
theorem interpolate_escaped_raw_modes (options : SpxOptions) (expression : String)
    (value : JVal) :
    interpolateSegment options false expression value =
      (sanitizeHTML (specEscapedStringify options value), []) ∧
    (options.allowRawHTML = true →
      interpolateSegment options true expression value = (rawModeString value, [])) ∧
    (options.allowRawHTML = false →
      interpolateSegment options true expression value =
        (options.missingValuePlaceholder, [rawDisabledWarning expression])) := by
  refine ⟨?_, ?_, ?_⟩
  · cases value <;>
      simp [interpolateSegment, specEscapedStringify, typeofIsObject, jsonStringify]
  · intro h; simp [interpolateSegment, h]
  · intro h; simp [interpolateSegment, h]

/-- Claim C2, witness (the spec's own test vector): with raw HTML
enabled, the escaped segment for the string `<b>x</b>` renders the
escaped text while the raw segment renders the markup verbatim. -/
theorem interpolate_escaped_raw_modes_witness :
    interpolateSegment ⟨"", true⟩ false "expr" (JVal.vstr "<b>x</b>") =
      ("&lt;b&gt;x&lt;/b&gt;", []) ∧
    interpolateSegment ⟨"", true⟩ true "expr" (JVal.vstr "<b>x</b>") =
      ("<b>x</b>", []) :=
  ⟨((interpolate_escaped_raw_modes ⟨"", true⟩ "expr" (JVal.vstr "<b>x</b>")).1).trans
      (by decide),
    (interpolate_escaped_raw_modes ⟨"", true⟩ "expr" (JVal.vstr "<b>x</b>")).2.1 rfl⟩

/-! ## Expression safety check and evaluator guard (claim C3)

`_isValidExpression` (templateEngine.js lines 314-325) tests the
expression text against six case-insensitive regular expressions:
`Function\s*\(`, `eval\s*\(`, `setTimeout\s*\(`, `setInterval\s*\(`,
`__proto__` and `constructor\s*\[`.  These are modelled by a
case-insensitive scan over the character list (`\s` is modelled by the
ASCII whitespace characters; the patterns themselves are ASCII, so the
scan is faithful on them).  `_buildScopedEvaluator` (lines 448-549)
first short-circuits empty/whitespace-only expressions, then blocks
invalid expressions with a console warning, returning an evaluator that
ignores its context and yields `undefined`; only otherwise does it
compile the expression.  Compilation of a valid expression is abstracted
by the `compile` parameter, and the whole evaluation context (base data
context, component instance and additional scope) by the type `α`, so
that the blocked behaviour is established for every possible context. -/

/-- The ASCII whitespace characters matched by the regex class `\s`. -/
def isJsWs (c : Char) : Bool :=
  c = ' ' || c = '\t' || c = '\n' || c = '\x0b' || c = '\x0c' || c = '\r'

/-- Case-insensitive match of a (lower-case) pattern character against a
subject character, as under the regex `i` flag. -/
def charLowEq (p c : Char) : Bool := c.toLower = p

/-- Case-insensitive "pattern is a prefix here" test. -/
def startsCI : List Char → List Char → Bool
  | [], _ => true
  | _ :: _, [] => false
  | p :: ps, c :: cs => charLowEq p c && startsCI ps cs

/-- `\s*` followed by the single character `t`. -/
def skipWsThen (t : Char) : List Char → Bool
  | [] => false
  | c :: cs => if isJsWs c then skipWsThen t cs else c = t

/-- The pattern `Function` (lower-cased). -/
def patFunction : List Char := ['f', 'u', 'n', 'c', 't', 'i', 'o', 'n']

/-- The pattern `eval` (lower-cased). -/
def patEval : List Char := ['e', 'v', 'a', 'l']

/-- The pattern `setTimeout` (lower-cased). -/
def patSetTimeout : List Char := ['s', 'e', 't', 't', 'i', 'm', 'e', 'o', 'u', 't']

/-- The pattern `setInterval` (lower-cased). -/
def patSetInterval : List Char :=
  ['s', 'e', 't', 'i', 'n', 't', 'e', 'r', 'v', 'a', 'l']

/-- The pattern `__proto__`. -/
def patProto : List Char := ['_', '_', 'p', 'r', 'o', 't', 'o', '_', '_']

/-- The pattern `constructor` (lower-cased). -/
def patConstructor : List Char :=
  ['c', 'o', 'n', 's', 't', 'r', 'u', 'c', 't', 'o', 'r']

/-- Whether one of the six dangerous patterns matches starting at the
head of `s`. -/
def dangerousAt (s : List Char) : Bool :=
  (startsCI patFunction s && skipWsThen '(' (s.drop 8)) ||
  (startsCI patEval s && skipWsThen '(' (s.drop 4)) ||
  (startsCI patSetTimeout s && skipWsThen '(' (s.drop 10)) ||
  (startsCI patSetInterval s && skipWsThen '(' (s.drop 11)) ||
  startsCI patProto s ||
  (startsCI patConstructor s && skipWsThen '[' (s.drop 11))

/-- Unanchored scan: does `p` hold at some suffix of the list? -/
def scanAny (p : List Char → Bool) : List Char → Bool
  | [] => p []
  | c :: cs => p (c :: cs) || scanAny p cs

/-- `_isValidExpression` (lines 314-325): true when no dangerous pattern
occurs anywhere in the expression. -/
def isValidExpression (expression : String) : Bool :=
  !scanAny dangerousAt expression.data

/-- The result of `_buildScopedEvaluator`: the callable it returns,
running against an evaluation context of type `α`, plus the console
warnings emitted while building it. -/
structure BuiltEvaluator (α : Type) where
  run : α → JVal
  warnings : List String

/-- The console warning of line 454. -/
def blockedWarning (expression : String) : String :=
  "Spandrix: Blocked unsafe expression: \"" ++ expression ++ "\""

/-- `_buildScopedEvaluator` (lines 448-549).  The guard structure is
translated exactly: empty or whitespace-only expressions yield a silent
no-op evaluator; expressions rejected by `_isValidExpression` yield a
no-op evaluator plus the blocked-expression warning; otherwise the
expression is compiled (the compilation and the provider-map machinery
are abstracted by `compile`, and the full evaluation context — base data
context, component instance, additional scope — by `α`). -/
def buildScopedEvaluator {α : Type} (compile : String → α → JVal)
    (expression : String) : BuiltEvaluator α :=
  if expression.data.all isJsWs then ⟨fun _ => .vundefined, []⟩
  else if !isValidExpression expression then
    ⟨fun _ => .vundefined, [blockedWarning expression]⟩
  else ⟨compile expression, []⟩

theorem startsCI_cons_false (p : Char) (ps : List Char) (c : Char) (cs : List Char)
    (h : charLowEq p c = false) : startsCI (p :: ps) (c :: cs) = false := by
  simp [startsCI, h]

theorem isJsWs_toLower (c : Char) (h : isJsWs c = true) : c.toLower = c := by
  simp only [isJsWs, Bool.or_eq_true, decide_eq_true_eq] at h
  rcases h with ((((h | h) | h) | h) | h) | h <;> subst h <;> decide

theorem isJsWs_charLowEq_false (p c : Char) (hp : isJsWs p = false)
    (hc : isJsWs c = true) : charLowEq p c = false := by
  cases hq : charLowEq p c
  · rfl
  · exfalso
    simp only [charLowEq, decide_eq_true_eq] at hq
    rw [isJsWs_toLower c hc] at hq
    subst hq
    rw [hc] at hp
    exact Bool.true_eq_false ▸ hp

theorem ws_head_not_dangerous (c : Char) (cs : List Char) (h : isJsWs c = true) :
    dangerousAt (c :: cs) = false := by
  have hf : charLowEq 'f' c = false := isJsWs_charLowEq_false 'f' c (by decide) h
  have he : charLowEq 'e' c = false := isJsWs_charLowEq_false 'e' c (by decide) h
  have hs : charLowEq 's' c = false := isJsWs_charLowEq_false 's' c (by decide) h
  have hu : charLowEq '_' c = false := isJsWs_charLowEq_false '_' c (by decide) h
  have hk : charLowEq 'c' c = false := isJsWs_charLowEq_false 'c' c (by decide) h
  simp [dangerousAt, patFunction, patEval, patSetTimeout, patSetInterval, patProto,
    patConstructor, startsCI, hf, he, hs, hu, hk]

theorem allWs_not_dangerous_scan (l : List Char) (h : l.all isJsWs = true) :
    scanAny dangerousAt l = false := by
  induction l with
  | nil => decide
  | cons c cs ih =>
      simp only [List.all_cons, Bool.and_eq_true] at h
      simp [scanAny, ws_head_not_dangerous c cs h.1, ih h.2]

/-- Claim C3: every expression string matched by the fixed denylist is
blocked — `_buildScopedEvaluator` emits the blocked-expression warning
and returns an evaluator that yields `undefined` on every evaluation
context, for every possible compilation behaviour of the unblocked
path. -/
theorem buildScopedEvaluator_blocked_noop (expression : String)
    (h : isValidExpression expression = false) :
    ∀ (α : Type) (compile : String → α → JVal) (context : α),
      (buildScopedEvaluator compile expression).run context = JVal.vundefined ∧
      (buildScopedEvaluator compile expression).warnings =
        [blockedWarning expression] := by
  intro α compile context
  have hscan : scanAny dangerousAt expression.data = true := by
    simpa [isValidExpression] using h
  have hws : expression.data.all isJsWs = false := by
    cases hall : expression.data.all isJsWs
    · rfl
    · rw [allWs_not_dangerous_scan expression.data hall] at hscan
      exact absurd hscan (by simp)
  constructor <;> simp [buildScopedEvaluator, hws, h]

/-- Claim C3, witness: the concrete denylisted expression `eval(x)` is
blocked even when the compiler would have produced a non-`undefined`
value. -/
theorem buildScopedEvaluator_blocked_noop_witness :
    (buildScopedEvaluator (fun _ (_ : Unit) => JVal.vnum 7) "eval(x)").run () =
      JVal.vundefined ∧
    (buildScopedEvaluator (fun _ (_ : Unit) => JVal.vnum 7) "eval(x)").warnings =
      [blockedWarning "eval(x)"] :=
  buildScopedEvaluator_blocked_noop "eval(x)" (by decide) Unit
    (fun _ (_ : Unit) => JVal.vnum 7) ()

/-! ## Root re-render scheduling (claim C4)

`_scheduleRootReRender` (templateEngine.js lines 2284-2295) returns
immediately when `_rootRerenderScheduled` is already set; otherwise it
sets the flag and queues a microtask (`Promise.resolve().then`) that
first resets the flag and then re-renders the root.
`_rootDataUpdateCallback` (lines 34-37) is the change callback of the
root reactive data and simply calls `_scheduleRootReRender`.  The model
tracks the flag, the number of queued re-render microtasks, and a
counter of executed root re-renders; running a microtask performs the
flag reset and the re-render of the `.then` body (the `.catch` recovery
path is not modelled — `_reRenderRoot` is modelled as the counter bump
and does not throw). -/

/-- Scheduler-relevant engine state: the `_rootRerenderScheduled` flag,
the queued re-render microtasks, and how many root re-renders ran. -/
structure SchedState where
  rootRerenderScheduled : Bool
  pendingMicrotasks : Nat
  rootRenders : Nat

/-- `_scheduleRootReRender` (lines 2284-2295): no-op while a re-render
is already scheduled, else set the flag and queue one microtask. -/
def scheduleRootReRender (s : SchedState) : SchedState :=
  if s.rootRerenderScheduled then s
  else
    { rootRerenderScheduled := true,
      pendingMicrotasks := s.pendingMicrotasks + 1,
      rootRenders := s.rootRenders }

/-- `_rootDataUpdateCallback` (lines 34-37): a root-data mutation
notification schedules a root re-render. -/
def rootDataUpdateCallback (s : SchedState) : SchedState :=
  scheduleRootReRender s

/-- Running one queued re-render microtask: reset the flag, then
re-render the root (lines 2288-2291). -/
def runScheduledMicrotask (s : SchedState) : SchedState :=
  match s.pendingMicrotasks with
  | 0 => s
  | k + 1 =>
      { rootRerenderScheduled := false,
        pendingMicrotasks := k,
        rootRenders := s.rootRenders + 1 }

/-- `n` synchronous root-data mutations within one tick, each firing the
root change callback. -/
def mutateRootN : Nat → SchedState → SchedState
  | 0, s => s
  | n + 1, s => mutateRootN n (rootDataUpdateCallback s)

/-- Draining `n` microtasks at the end of the tick. -/
def drainMicrotasks : Nat → SchedState → SchedState
  | 0, s => s
  | n + 1, s => drainMicrotasks n (runScheduledMicrotask s)

theorem mutateRootN_scheduled (n : Nat) (s : SchedState)
    (h : s.rootRerenderScheduled = true) : mutateRootN n s = s := by
  induction n with
  | zero => rfl
  | succ n ih =>
      simp [mutateRootN, rootDataUpdateCallback, scheduleRootReRender, h, ih]

/-- Claim C4: any batch of `n ≥ 1` synchronous root-data mutations in
one tick, starting from a quiescent scheduler (flag clear, nothing
queued), queues exactly one re-render microtask and sets the flag; when
the queue is then drained, exactly one root re-render runs and the flag
is clear again. -/
theorem rootRerender_batched_once (n : Nat) (s : SchedState) (hn : 1 ≤ n)
    (hflag : s.rootRerenderScheduled = false) (hq : s.pendingMicrotasks = 0) :
    (mutateRootN n s).pendingMicrotasks = 1 ∧
    (mutateRootN n s).rootRerenderScheduled = true ∧
    (drainMicrotasks (mutateRootN n s).pendingMicrotasks
        (mutateRootN n s)).rootRenders = s.rootRenders + 1 ∧
    (drainMicrotasks (mutateRootN n s).pendingMicrotasks
        (mutateRootN n s)).rootRerenderScheduled = false := by
  obtain ⟨m, rfl⟩ : ∃ m, n = m + 1 := ⟨n - 1, (Nat.succ_pred_eq_of_pos hn).symm⟩
  have hstep : rootDataUpdateCallback s =
      { rootRerenderScheduled := true, pendingMicrotasks := 1,
        rootRenders := s.rootRenders } := by
    simp [rootDataUpdateCallback, scheduleRootReRender, hflag, hq]
  have hrest : mutateRootN (m + 1) s =
      { rootRerenderScheduled := true, pendingMicrotasks := 1,
        rootRenders := s.rootRenders } := by
    show mutateRootN m (rootDataUpdateCallback s) = _
    rw [hstep, mutateRootN_scheduled m _ rfl]
  rw [hrest]
  refine ⟨rfl, rfl, rfl, rfl⟩

/-- Claim C4, witness: three synchronous mutations from the initial
state produce one queued microtask and, after the drain, exactly one
root re-render. -/
theorem rootRerender_batched_once_witness :
    (mutateRootN 3 ⟨false, 0, 0⟩).pendingMicrotasks = 1 ∧
    (mutateRootN 3 ⟨false, 0, 0⟩).rootRerenderScheduled = true ∧
    (drainMicrotasks (mutateRootN 3 ⟨false, 0, 0⟩).pendingMicrotasks
        (mutateRootN 3 ⟨false, 0, 0⟩)).rootRenders =
      (⟨false, 0, 0⟩ : SchedState).rootRenders + 1 ∧
    (drainMicrotasks (mutateRootN 3 ⟨false, 0, 0⟩).pendingMicrotasks
        (mutateRootN 3 ⟨false, 0, 0⟩)).rootRerenderScheduled = false :=
  rootRerender_batched_once 3 ⟨false, 0, 0⟩ (by decide) rfl rfl

/-! ## Path resolver: `_getValueByPath` / `_setValueByPath` (claim C5)

`_getValueByPath` (templateEngine.js lines 277-284) special-cases the
paths `"."` and `""` (returning the object itself) and otherwise reduces
over the dot-separated segments, stepping into a segment only when the
accumulator is a truthy object that has the key, and collapsing to
`undefined` otherwise.  `_setValueByPath` (lines 286-305) rejects
whitespace-only paths (returns `false`), then walks all but the last
segment, replacing any missing or non-object intermediate with a fresh
plain object, and assigns the last segment.

The values traversed are modelled by `PVal`: property-table objects
(`pobj`, which also stands for JavaScript arrays, i.e. index-keyed
property tables) and opaque non-container values (`atom`, standing for
primitives and `null` — everything the walker replaces).  `in`-checks
are modelled on own keys (the engine only ever traverses own data
properties here).  JavaScript's `split('.')` is modelled character by
character by `splitDots`. -/

/-- A value as seen by the path resolver: an opaque non-container value
or a string-keyed property table. -/
inductive PVal where
  | atom (n : Nat)
  | pobj (fields : List (String × PVal))

/-- Property write on an association list (replace or append). -/
def setAssoc {β : Type} (fields : List (String × β)) (key : String) (v : β) :
    List (String × β) :=
  match fields with
  | [] => [(key, v)]
  | (k, w) :: rest =>
      if k = key then (key, v) :: rest else (k, w) :: setAssoc rest key v

theorem lookup_setAssoc {β : Type} (fields : List (String × β)) (key : String)
    (v : β) : (setAssoc fields key v).lookup key = some v := by
  induction fields with
  | nil => simp [setAssoc]
  | cons kw rest ih =>
      obtain ⟨k, w⟩ := kw
      by_cases h : k = key
      · simp [setAssoc, h]
      · have hne : (key == k) = false := by
          simp only [beq_eq_false_iff_ne, ne_eq]
          exact fun hh => h hh.symm
        simp [setAssoc, h, List.lookup, hne, ih]

/-- `path.split('.')`, character by character: `cur` is the segment
being accumulated. -/
def splitDotsGo (cur : String) : List Char → List String
  | [] => [cur]
  | c :: rest =>
      if c = '.' then cur :: splitDotsGo "" rest else splitDotsGo (cur.push c) rest

/-- JavaScript `path.split('.')`. -/
def splitDots (path : String) : List String := splitDotsGo "" path.data

theorem splitDotsGo_ne_nil (l : List Char) : ∀ cur, splitDotsGo cur l ≠ [] := by
  induction l with
  | nil => intro cur; simp [splitDotsGo]
  | cons c rest ih =>
      intro cur
      by_cases h : c = '.'
      · simp [splitDotsGo, h]
      · simp only [splitDotsGo, if_neg h]
        exact ih _

/-- `keys.pop()` and the remaining keys: splits a non-empty list into
its leading segments and its last segment. -/
def splitLast : List String → List String × String
  | [] => ([], "")
  | [k] => ([], k)
  | k :: k2 :: rest =>
      (k :: (splitLast (k2 :: rest)).1, (splitLast (k2 :: rest)).2)

theorem splitLast_append : ∀ (l : List String), l ≠ [] →
    (splitLast l).1 ++ [(splitLast l).2] = l
  | [], h => absurd rfl h
  | [k], _ => rfl
  | k :: k2 :: rest, _ => by
      have ih := splitLast_append (k2 :: rest) (by simp)
      simp only [splitLast, List.cons_append, List.cons.injEq, true_and]
      exact ih

/-- One step of the reduce in `_getValueByPath` (lines 281-283):
`(acc && typeof acc === 'object' && key in acc) ? acc[key] : undefined`.
A `none` accumulator models `undefined`. -/
def pathStep (acc : Option PVal) (key : String) : Option PVal :=
  match acc with
  | some (.pobj fs) => fs.lookup key
  | _ => none

/-- `_getValueByPath` (lines 277-284). -/
def getValueByPath (obj : PVal) (path : String) : Option PVal :=
  if path = "." ∨ path = "" then some obj
  else (splitDots path).foldl pathStep (some obj)

/-- The walk-and-assign loop of `_setValueByPath` (lines 293-304):
descend through the leading keys, replacing missing or non-object
intermediates with fresh plain objects, then assign the last key.
Property assignment on a primitive receiver is silently discarded, as in
non-strict JavaScript (the claim only concerns object receivers). -/
def setPathGo : PVal → List String → String → PVal → PVal
  | .pobj fs, [], lastKey, v => .pobj (setAssoc fs lastKey v)
  | .atom n, [], _, _ => .atom n
  | .pobj fs, key :: rest, lastKey, v =>
      let child :=
        match fs.lookup key with
        | some (.pobj cfs) => PVal.pobj cfs
        | _ => PVal.pobj []
      .pobj (setAssoc fs key (setPathGo child rest lastKey v))
  | .atom n, _ :: _, _, _ => .atom n

/-- `_setValueByPath` (lines 286-305): `false` for whitespace-only
paths, else walk and assign, returning `true`. -/
def setValueByPath (obj : PVal) (path : String) (v : PVal) : PVal × Bool :=
  if path.data.all isJsWs then (obj, false)
  else
    (setPathGo obj (splitLast (splitDots path)).1 (splitLast (splitDots path)).2 v,
      true)

theorem setPathGo_foldl (initKeys : List String) (lastKey : String) (v : PVal) :
    ∀ fs, (initKeys ++ [lastKey]).foldl pathStep
      (some (setPathGo (PVal.pobj fs) initKeys lastKey v)) = some v := by
  induction initKeys with
  | nil =>
      intro fs
      simp [setPathGo, pathStep, lookup_setAssoc]
  | cons key rest ih =>
      intro fs
      rcases hlk : fs.lookup key with _ | w
      · simp only [setPathGo, hlk, List.cons_append, List.foldl_cons, pathStep,
          lookup_setAssoc]
        exact ih []
      · cases w with
        | atom n =>
            simp only [setPathGo, hlk, List.cons_append, List.foldl_cons, pathStep,
              lookup_setAssoc]
            exact ih []
        | pobj cfs =>
            simp only [setPathGo, hlk, List.cons_append, List.foldl_cons, pathStep,
              lookup_setAssoc]
            exact ih cfs

/-- Claim C5, counterexample.  The claim quantifies over every non-empty
dotted path, but the path `"."` breaks the round-trip:
`_setValueByPath` splits it into two empty segments and stores the value
at `obj[""][""]`, while `_getValueByPath` special-cases `"."` and
returns the object itself, not the stored value. -/
theorem setValueByPath_dot_counterexample :
    (setValueByPath (.pobj []) "." (.atom 1)).2 = true ∧
    getValueByPath (setValueByPath (.pobj []) "." (.atom 1)).1 "." ≠
      some (.atom 1) := by
  refine ⟨rfl, ?_⟩
  intro h
  have h2 : getValueByPath (setValueByPath (.pobj []) "." (.atom 1)).1 "." =
      some (.pobj [("", PVal.pobj [("", PVal.atom 1)])]) := rfl
  rw [h2] at h
  exact PVal.noConfusion (Option.some.inj h)

/-- Claim C5 (amended): for every object and every dotted path that is
neither whitespace-only (those are rejected by `_setValueByPath`) nor
the single path `"."` (which `_getValueByPath` special-cases to the
object itself), `_setValueByPath` succeeds — creating intermediate plain
objects for missing or non-object intermediate segments — and
`_getValueByPath` then reads back exactly the written value. -/
theorem setValueByPath_getValueByPath_roundtrip (fs : List (String × PVal))
    (path : String) (v : PVal) (hws : path.data.all isJsWs = false)
    (hdot : path ≠ ".") :
    (setValueByPath (.pobj fs) path v).2 = true ∧
    getValueByPath (setValueByPath (.pobj fs) path v).1 path = some v := by
  have hempty : path ≠ "" := by
    intro h
    subst h
    exact absurd hws (by decide)
  have hsplit : (splitLast (splitDots path)).1 ++ [(splitLast (splitDots path)).2] =
      splitDots path :=
    splitLast_append (splitDots path) (splitDotsGo_ne_nil path.data "")
  constructor
  · simp [setValueByPath, hws]
  · have hset : (setValueByPath (.pobj fs) path v).1 =
        setPathGo (PVal.pobj fs) (splitLast (splitDots path)).1
          (splitLast (splitDots path)).2 v := by
      simp [setValueByPath, hws]
    rw [hset]
    unfold getValueByPath
    rw [if_neg (by simp [hdot, hempty])]
    generalize hI : (splitLast (splitDots path)).1 = initKeys at hsplit ⊢
    generalize hL : (splitLast (splitDots path)).2 = lastKey at hsplit ⊢
    rw [← hsplit]
    exact setPathGo_foldl initKeys lastKey v fs

/-- Claim C5, witness: the spec's own example path `a.b.c`, written into
an object whose `a` slot holds a primitive (forcing intermediate object
creation), reads back the written value. -/
theorem setValueByPath_getValueByPath_roundtrip_witness :
    (setValueByPath (.pobj [("a", PVal.atom 0)]) "a.b.c" (.atom 7)).2 = true ∧
    getValueByPath (setValueByPath (.pobj [("a", PVal.atom 0)]) "a.b.c"
        (.atom 7)).1 "a.b.c" = some (.atom 7) :=
  setValueByPath_getValueByPath_roundtrip [("a", PVal.atom 0)] "a.b.c" (.atom 7)
    (by decide) (by decide)

/-! ## Component template context: the `set` trap (claim C7)

The template-context proxy's `set` trap (templateEngine.js lines
1808-1839) routes an assignment, in order: (1) into the reactive data
container when the key is already a data key *or the component
definition has a data factory function* (the condition
`key in target._componentData || typeof componentDef.data === 'function'`
of line 1812); (2) rejected with a console warning when the key is a
declared prop (a key of `$props`, which holds exactly the resolved
declared props); (3) passthrough into the parent loop scope for
object-valued loop variables; (4) passthrough into global `$state` for
recognized state keys; (5) otherwise a raw instance property.  `$props`
is the reactive container built at lines 1724-1731.  The model records
the five routed stores, the trap's boolean return value, and the
warnings emitted. -/

/-- The stores reachable from the template-context `set` trap of one
component instance. -/
structure ComponentSetState where
  componentData : List (String × JVal)
  hasDataFunction : Bool
  props : List (String × JVal)
  parentLoopScope : List (String × JVal)
  globalState : List (String × JVal)
  instanceFields : List (String × JVal)
  defName : String

/-- `key in table` on own keys. -/
def hasKey (fields : List (String × JVal)) (key : String) : Bool :=
  (fields.lookup key).isSome

/-- The console warning of lines 1818-1821. -/
def propSetWarning (defName key : String) : String :=
  "Spandrix: Cannot set prop \"" ++ key ++ "\" on <" ++ defName ++
    ">. Props are one-way."

/-- The template-context `set` trap (lines 1808-1839): returns the
updated stores, the trap's return value, and the emitted warnings. -/
def templateContextSet (s : ComponentSetState) (key : String) (v : JVal) :
    ComponentSetState × Bool × List String :=
  if hasKey s.componentData key || s.hasDataFunction then
    ({ s with componentData := setOwn s.componentData key v }, true, [])
  else if hasKey s.props key then
    (s, false, [propSetWarning s.defName key])
  else if hasKey s.parentLoopScope key &&
      (match s.parentLoopScope.lookup key with
        | some w => jvalIsObjNonNull w
        | none => false) then
    ({ s with parentLoopScope := setOwn s.parentLoopScope key v }, true, [])
  else if hasKey s.globalState key then
    ({ s with globalState := setOwn s.globalState key v }, true, [])
  else
    ({ s with instanceFields := setOwn s.instanceFields key v }, true, [])

/-- Claim C7, counterexample.  For a component whose definition has a
data factory function (the common case), assigning to a declared prop
`p` that is not a data key is *not* rejected: the trap's first branch
routes it into the data container, returns `true` and warns nothing, so
the write silently creates a shadowing data property. -/
theorem templateContextSet_dataFn_counterexample :
    (templateContextSet ⟨[], true, [("p", JVal.vnum 1)], [], [], [], "child"⟩
        "p" (JVal.vnum 2)).2.1 = true ∧
    (templateContextSet ⟨[], true, [("p", JVal.vnum 1)], [], [], [], "child"⟩
        "p" (JVal.vnum 2)).2.2 = [] ∧
    (templateContextSet ⟨[], true, [("p", JVal.vnum 1)], [], [], [], "child"⟩
        "p" (JVal.vnum 2)).1.componentData = [("p", JVal.vnum 2)] ∧
    hasKey (⟨[], true, [("p", JVal.vnum 1)], [], [], [], "child"⟩ :
        ComponentSetState).props "p" = true :=
  ⟨rfl, rfl, rfl, rfl⟩

/-- Claim C7 (amended): assigning through the template context to a
declared-prop key that is not a data key is rejected — `set` returns
`false`, the one-way-props warning is emitted and no store changes —
exactly when the component definition has no data factory function; when
it does have one, the write is instead routed into the data container
(accepted silently, creating a shadowing data property).  In both cases
the reactive props container is left unchanged. -/
theorem templateContextSet_prop_rejection (s : ComponentSetState) (key : String)
    (v : JVal) (hprop : hasKey s.props key = true)
    (hdata : hasKey s.componentData key = false) :
    (s.hasDataFunction = false →
      templateContextSet s key v = (s, false, [propSetWarning s.defName key])) ∧
    (s.hasDataFunction = true →
      (templateContextSet s key v).1.componentData.lookup key = some v ∧
      (templateContextSet s key v).2.1 = true ∧
      (templateContextSet s key v).2.2 = []) ∧
    (templateContextSet s key v).1.props = s.props := by
  refine ⟨?_, ?_, ?_⟩
  · intro hfn
    simp [templateContextSet, hdata, hfn, hprop]
  · intro hfn
    simp [templateContextSet, hdata, hfn, lookup_setOwn]
  · by_cases hfn : s.hasDataFunction
    · simp [templateContextSet, hdata, hfn]
    · simp [templateContextSet, hdata, hfn, hprop]

/-- Claim C7, witness: a component without a data factory rejects the
prop write with the warning and leaves everything unchanged. -/
theorem templateContextSet_prop_rejection_witness :
    templateContextSet ⟨[], false, [("p", JVal.vnum 1)], [], [], [], "child"⟩
        "p" (JVal.vnum 2) =
      (⟨[], false, [("p", JVal.vnum 1)], [], [], [], "child"⟩, false,
        [propSetWarning "child" "p"]) :=
  (templateContextSet_prop_rejection
      ⟨[], false, [("p", JVal.vnum 1)], [], [], [], "child"⟩ "p" (JVal.vnum 2)
      rfl rfl).1 rfl

/-! ## Fetch directive terminal state (claim C8)

`_processFetchDirective` initiates a request at templateEngine.js lines
1440-1445 (setting the per-node marker `_spx_node_is_fetching_this_request_id`,
the container markers `_spxIsCurrentlyFetching` / `_spxLastFetchId` /
`_spxLastFetchCompletedSuccessfully`, `$loading` and clearing `$error`),
and settles it at lines 1454-1479: the `.then` branch stores the payload
into `.data`, clears `$error` and marks success; the `.catch` branch
clears `.data` to `null` and stores the stringified error into `$error`;
the `.finally` branch clears the node marker and the container in-flight
marker (each guarded by a request-id comparison) and clears `$loading`.
Errors are modelled by their stringified form
(`error.message || String(error)`); the CSS class side effects on the
host node are outside the modelled state. -/

/-- The reactive fetch-state container built at lines 1386-1394:
`$loading`, `$error`, `data` plus the private bookkeeping fields
(`_spxLastFetchId`, `_spxLastFetchCompletedSuccessfully`,
`_spxIsCurrentlyFetching`). -/
structure FetchState where
  data : JVal
  errorVal : Option String
  loading : Bool
  lastFetchId : Option String
  lastFetchCompletedSuccessfully : Bool
  isCurrentlyFetching : Bool

/-- The per-node in-flight marker
`node._spx_node_is_fetching_this_request_id` (`none` when deleted). -/
structure FetchNodeState where
  nodeFetchingRequestId : Option String

/-- Fetch initiation (lines 1440-1445). -/
def processFetchStart (fs : FetchState) (reqId : String) :
    FetchState × FetchNodeState :=
  ({ fs with
      isCurrentlyFetching := true,
      lastFetchId := some reqId,
      lastFetchCompletedSuccessfully := false,
      loading := true,
      errorVal := none },
    ⟨some reqId⟩)

/-- Settlement of the transport promise (lines 1454-1479): the
`.then`/`.catch` branch followed by the `.finally` branch. -/
def fetchSettle (fs : FetchState) (ns : FetchNodeState) (reqId : String)
    (outcome : Except String JVal) : FetchState × FetchNodeState :=
  let fs1 :=
    match outcome with
    | .ok payload =>
        { fs with
            data := payload
            errorVal := none
            lastFetchCompletedSuccessfully := true }
    | .error msg =>
        { fs with
            data := .vnull
            errorVal := some msg }
  let ns1 : FetchNodeState :=
    if ns.nodeFetchingRequestId = some reqId then ⟨none⟩ else ns
  let fs2 :=
    if fs1.lastFetchId = some reqId then { fs1 with isCurrentlyFetching := false }
    else fs1
  ({ fs2 with loading := false }, ns1)

/-- Claim C8: for every fetch invocation (initiation followed by its own
settlement), a rejected transport request leaves `.data` cleared to
`null` and `$error` holding the stringified error; and in every terminal
case — success or failure — `$loading` is cleared and both the per-node
and the per-container in-flight markers are cleared. -/
theorem fetch_terminal_state (fs : FetchState) (reqId : String)
    (outcome : Except String JVal) :
    (∀ msg, outcome = .error msg →
      (fetchSettle (processFetchStart fs reqId).1 (processFetchStart fs reqId).2
          reqId outcome).1.data = JVal.vnull ∧
      (fetchSettle (processFetchStart fs reqId).1 (processFetchStart fs reqId).2
          reqId outcome).1.errorVal = some msg) ∧
    (fetchSettle (processFetchStart fs reqId).1 (processFetchStart fs reqId).2
        reqId outcome).1.loading = false ∧
    (fetchSettle (processFetchStart fs reqId).1 (processFetchStart fs reqId).2
        reqId outcome).1.isCurrentlyFetching = false ∧
    (fetchSettle (processFetchStart fs reqId).1 (processFetchStart fs reqId).2
        reqId outcome).2.nodeFetchingRequestId = none := by
  refine ⟨?_, ?_, ?_, ?_⟩
  · intro msg hmsg
    subst hmsg
    constructor <;> simp [fetchSettle, processFetchStart]
  · cases outcome <;> simp [fetchSettle, processFetchStart]
  · cases outcome <;> simp [fetchSettle, processFetchStart]
  · cases outcome <;> simp [fetchSettle, processFetchStart]

/-- Claim C8, witness: a concrete failing fetch from a fresh container
ends with `data = null`, the error recorded, loading off and both
in-flight markers cleared. -/
theorem fetch_terminal_state_witness :
    (fetchSettle (processFetchStart ⟨.vnull, none, false, none, false, false⟩
          "req1").1
        (processFetchStart ⟨.vnull, none, false, none, false, false⟩ "req1").2
        "req1" (.error "boom")).1.data = JVal.vnull ∧
    (fetchSettle (processFetchStart ⟨.vnull, none, false, none, false, false⟩
          "req1").1
        (processFetchStart ⟨.vnull, none, false, none, false, false⟩ "req1").2
        "req1" (.error "boom")).1.errorVal = some "boom" ∧
    (fetchSettle (processFetchStart ⟨.vnull, none, false, none, false, false⟩
          "req1").1
        (processFetchStart ⟨.vnull, none, false, none, false, false⟩ "req1").2
        "req1" (.error "boom")).1.loading = false ∧
    (fetchSettle (processFetchStart ⟨.vnull, none, false, none, false, false⟩
          "req1").1
        (processFetchStart ⟨.vnull, none, false, none, false, false⟩ "req1").2
        "req1" (.error "boom")).1.isCurrentlyFetching = false ∧
    (fetchSettle (processFetchStart ⟨.vnull, none, false, none, false, false⟩
          "req1").1
        (processFetchStart ⟨.vnull, none, false, none, false, false⟩ "req1").2
        "req1" (.error "boom")).2.nodeFetchingRequestId = none := by
  have h := fetch_terminal_state ⟨.vnull, none, false, none, false, false⟩ "req1"
    (.error "boom")
  exact ⟨(h.1 "boom" rfl).1, (h.1 "boom" rfl).2, h.2.1, h.2.2.1, h.2.2.2⟩

/-! ## `$emit` after destruction (claim C9)

`$emit` (templateEngine.js lines 1663-1671) checks the instance's
`_destroyed` flag first and returns without dispatching anything when it
is set; otherwise it dispatches one bubbling, composed `CustomEvent`
from the host element whose detail is the single payload argument, or
the argument array when zero or several arguments were passed. -/

/-- A `CustomEvent` dispatched from a component's host element. -/
structure DispatchedEvent where
  eventName : String
  detail : JVal
  bubbles : Bool
  composed : Bool

/-- `$emit` (lines 1663-1671), returning the list of events dispatched
from the host element. -/
def emitFromInstance (destroyed : Bool) (eventName : String)
    (detailArgs : List JVal) : List DispatchedEvent :=
  if destroyed then []
  else
    [⟨eventName,
      (match detailArgs with
        | [d] => d
        | ds => JVal.varr ds),
      true, true⟩]

/-- Claim C9: calling `$emit` on a destroyed component instance is a
no-op — no `CustomEvent` is dispatched, for every event name and
payload. -/
theorem emit_after_destroy_noop (eventName : String) (detailArgs : List JVal) :
    emitFromInstance true eventName detailArgs = [] := rfl

/-! ## `applyData` with invalid root data (claim C10)

`applyData` (templateEngine.js lines 2350-2377) warns and returns when
no root element is set; otherwise it substitutes a fresh empty object
for a non-object or `null` `userData`, wraps it in a new reactive root
container, resolves the effective template string (explicit argument,
else the root's current `innerHTML`, else the original root template),
and re-renders the root against the new container.  `_reRenderRoot` is
modelled as recording the render; the wrapper produced by
`_makeReactive` is modelled by `ReactiveRootData` around the target. -/

/-- The reactive wrapper `_makeReactive` puts around the root data. -/
structure ReactiveRootData where
  target : JVal

/-- Engine state relevant to `applyData`. -/
structure RootEngineState where
  hasRoot : Bool
  rootInnerHTML : String
  originalRootTemplate : String
  currentRootData : ReactiveRootData
  currentRootTemplateString : Option String
  rootRenderLog : List (String × ReactiveRootData)

/-- The effective root template string of lines 2368-2374: explicit
argument if truthy, else the root's current `innerHTML` if non-empty,
else the original root template (with the redundant final fallback of
lines 2372-2374). -/
def resolveRootTemplate (es : RootEngineState)
    (templateString : Option String) : String :=
  let tmpl1 :=
    match templateString with
    | some t =>
        if t = "" then
          if es.rootInnerHTML = "" then es.originalRootTemplate
          else es.rootInnerHTML
        else t
    | none =>
        if es.rootInnerHTML = "" then es.originalRootTemplate
        else es.rootInnerHTML
  if tmpl1 = "" then es.originalRootTemplate else tmpl1

/-- `applyData` (lines 2350-2377). -/
def applyData (es : RootEngineState) (userData : JVal)
    (templateString : Option String) : RootEngineState :=
  if !es.hasRoot then es
  else
    let newRootData := if jvalIsObjNonNull userData then userData else JVal.vobj []
    let tmpl := resolveRootTemplate es templateString
    { es with
        currentRootData := ⟨newRootData⟩
        currentRootTemplateString := some tmpl
        rootRenderLog := es.rootRenderLog ++ [(tmpl, ⟨newRootData⟩)] }

/-- Claim C10: `applyData` called with a non-object or `null` `userData`
(while a root element is set) does not keep the previous root data — the
root reactive container is replaced by a wrapper around a fresh empty
object — and the root template is still rendered against that new
container. -/
theorem applyData_nonObject_fresh (es : RootEngineState) (userData : JVal)
    (templateString : Option String) (hroot : es.hasRoot = true)
    (hno : jvalIsObjNonNull userData = false) :
    (applyData es userData templateString).currentRootData = ⟨JVal.vobj []⟩ ∧
    ∃ tmpl,
      (applyData es userData templateString).currentRootTemplateString =
        some tmpl ∧
      (applyData es userData templateString).rootRenderLog =
        es.rootRenderLog ++ [(tmpl, ⟨JVal.vobj []⟩)] := by
  refine ⟨?_, resolveRootTemplate es templateString, ?_, ?_⟩ <;>
    simp [applyData, hroot, hno]

/-- Claim C10, witness: applying the number `5` as root data over an
engine that previously held object data replaces the root container
with a fresh empty object and renders the root template against it. -/
theorem applyData_nonObject_fresh_witness :
    (applyData ⟨true, "", "<p>t</p>", ⟨JVal.vobj [("old", JVal.vnum 1)]⟩, none, []⟩
        (JVal.vnum 5) none).currentRootData = ⟨JVal.vobj []⟩ ∧
    ∃ tmpl,
      (applyData ⟨true, "", "<p>t</p>", ⟨JVal.vobj [("old", JVal.vnum 1)]⟩,
          none, []⟩ (JVal.vnum 5) none).currentRootTemplateString = some tmpl ∧
      (applyData ⟨true, "", "<p>t</p>", ⟨JVal.vobj [("old", JVal.vnum 1)]⟩,
          none, []⟩ (JVal.vnum 5) none).rootRenderLog = [] ++ [(tmpl, ⟨JVal.vobj []⟩)] :=
  applyData_nonObject_fresh
    ⟨true, "", "<p>t</p>", ⟨JVal.vobj [("old", JVal.vnum 1)]⟩, none, []⟩
    (JVal.vnum 5) none rfl rfl

end Spandrix
